import Mathlib

/-!
Verification of the xacro command-line front-end (files `xacro/cli.py` and
`xacro/__init__.py`): the diagnostics layer, the remap extractor, the
argument resolver and the output-capturing entrypoint, shallowly embedded
as executable Lean definitions, together with theorems settling the
specification claims.

Python strings are modelled as Lean `String` (UTF-8 text); `str.split`,
`str.strip` and substring containment are modelled by structural functions
over `List Char` that follow CPython semantics (non-overlapping
left-to-right search for a non-empty separator; both-ends whitespace
stripping). Exceptions are modelled with `Except`: a `.error` value is a
raised Python exception.
-/

namespace Xacro

/-- A Python text stream as seen by `colorize`: whether it has an `isatty`
attribute, and what that check reports.  (`hasattr(file, "isatty") and
file.isatty()`.) -/
structure TextStream where
  hasIsatty : Bool
  isatty : Bool
deriving DecidableEq, Repr

/-- `_ansi = {"red": 91, "yellow": 93}` together with the lookup
`_ansi.get(color, None)` performed at the top of `colorize`.  The argument
is `Option String` because `message` passes `kwargs.get("color", None)`. -/
def ansiGet : Option String → Option Nat
  | some "red" => some 91
  | some "yellow" => some 93
  | _ => none

/-- The f-string `f"{alt_text:s}{msg:s}"` from `colorize`.  Formatting a
string with `:s` succeeds; formatting `None` with `:s` raises `TypeError`
(`unsupported format string passed to NoneType.__format__`), modelled as
`.error ()`. -/
def formatAlt : Option String → String → Except Unit String
  | some a, msg => .ok (a ++ msg)
  | none, _ => .error ()

/-- Embedding of `cli.colorize(msg, color, file, alt_text)`.  The looked-up
color code is an `int` or `None`; Python truthiness of an `int` is `≠ 0`.
On the colored branch the result is `f"\033[{color:d}m{msg:s}\033[0m"`;
otherwise the alt-text branch is taken. -/
def colorize (msg : String) (color : Option String) (file : TextStream)
    (alt_text : Option String) : Except Unit String :=
  match ansiGet color with
  | some n =>
    if (n != 0) && file.hasIsatty && file.isatty then
      .ok ("\x1b[" ++ toString n ++ "m" ++ msg ++ "\x1b[0m")
    else formatAlt alt_text msg
  | none => formatAlt alt_text msg

/-- Embedding of `cli.message(msg, **kwargs)`: it reads `file`, `alt_text`
and `color` from the keyword arguments (defaulting to `sys.stderr`, `None`
and `None`) and prints `colorize(msg, color, file, alt_text)`.  The printed
line (respectively the raised exception) is the result. -/
def message (msg : String) (color : Option String) (file : TextStream)
    (alt_text : Option String) : Except Unit String :=
  colorize msg color file alt_text

/-- Embedding of `cli.warning(msg)` with its default keyword arguments
`alt_text="warning: "`, `color="yellow"`. -/
def warning (msg : String) (file : TextStream) : Except Unit String :=
  message msg (some "yellow") file (some "warning: ")

/-- Embedding of `cli.error(msg)` with its default keyword arguments
`alt_text="error: "`, `color="red"`. -/
def error (msg : String) (file : TextStream) : Except Unit String :=
  message msg (some "red") file (some "error: ")

/-! ## Remap extractor (`cli.load_mappings`) -/

/-- `REMAP = ":="` (copied from rosgraph.names). -/
def REMAP : String := ":="

/-- Worker for Python `s.split(":=")`: scans the character list left to
right; at each non-overlapping occurrence of `':' '='` the current chunk is
emitted and scanning restarts after the separator.  Returns the first chunk
plus the list of later chunks, so the result of a split is never empty, as
in Python.  `acc` holds the current chunk reversed. -/
def splitRemapChars : List Char → List Char → List Char × List (List Char)
  | [], acc => (acc.reverse, [])
  | [c], acc => ((c :: acc).reverse, [])
  | c1 :: c2 :: rest, acc =>
    if c1 = ':' && c2 = '=' then
      let p := splitRemapChars rest []
      (acc.reverse, p.1 :: p.2)
    else splitRemapChars (c2 :: rest) (c1 :: acc)

/-- Python `arg.split(REMAP)` with `REMAP = ":="`. -/
def pySplitRemap (s : String) : List String :=
  let p := splitRemapChars s.toList []
  (p.1 :: p.2).map String.mk

/-- The characters removed by Python `str.strip()` (ASCII whitespace:
space, tab, newline, carriage return, vertical tab, form feed). -/
def isPySpace (c : Char) : Bool :=
  c == ' ' || c == '\t' || c == '\n' || c == '\r' || c == '\x0b' || c == '\x0c'

/-- Python `s.strip()`: drop whitespace from both ends. -/
def pyStrip (s : String) : String :=
  String.mk (((s.toList.dropWhile isPySpace).reverse.dropWhile isPySpace).reverse)

/-- Python `REMAP in arg`: a non-empty separator occurs in `arg` exactly
when splitting on it yields more than one part. -/
def hasRemap (a : String) : Bool :=
  (pySplitRemap a).length != 1

/-- The condition `len(src) > 1 and src[0] == "_" and src[1] != "_"` that
makes a trimmed source a parameter assignment in `load_mappings`. -/
def isParamAssign (src : String) : Bool :=
  match src.toList with
  | c0 :: c1 :: _ => c0 == '_' && c1 != '_'
  | _ => false

/-- Python dict assignment `mappings[src] = dst` on an insertion-ordered
dictionary: an existing key keeps its position and gets the new value, a
new key is appended. -/
def dictInsert (m : List (String × String)) (k v : String) :
    List (String × String) :=
  if m.any (fun p => p.1 = k) then
    m.map (fun p => if p.1 = k then (k, v) else p)
  else m ++ [(k, v)]

/-- The loop body of `cli.load_mappings`.  For each argument containing
`":="`: `src, dst = [x.strip() for x in arg.split(REMAP)]` — tuple
unpacking succeeds only for exactly two parts, any other shape raises
`ValueError`, caught and re-raised as `RuntimeError` naming the argument
(modelled as `.error arg`).  Empty sides are silently ignored
(`if src and dst`), parameter assignments are skipped, everything else is
inserted into the dict. -/
def loadMappingsGo : List String → List (String × String) →
    Except String (List (String × String))
  | [], m => .ok m
  | arg :: rest, m =>
    if hasRemap arg then
      match (pySplitRemap arg).map pyStrip with
      | [src, dst] =>
        if src != "" && dst != "" then
          if isParamAssign src then loadMappingsGo rest m
          else loadMappingsGo rest (dictInsert m src dst)
        else loadMappingsGo rest m
      | _ => .error arg
    else loadMappingsGo rest m

/-- Embedding of `cli.load_mappings(argv)`.  `.error arg` stands for the
raised `RuntimeError("Invalid remapping argument '%s'\n" % arg)`. -/
def load_mappings (argv : List String) : Except String (List (String × String)) :=
  loadMappingsGo argv []

/-! ## Argument resolver (`cli.process_args`)

`process_args` builds a `ColoredOptionParser` with the options `-o FILE`
(store, dest `output`), `--deps` (store_true, dest `just_deps`),
`--inorder`/`-i` (store_true, dest `in_order`), `-q` (store_const 0, dest
`verbosity`), `-v` (count, dest `verbosity`) and `--verbosity LEVEL`
(store int, dest `verbosity`), with defaults `just_deps=False,
verbosity=1`, and parses the filtered argument vector with it.  The
functions below embed the `optparse` parsing loop for exactly this option
set: left-to-right processing with interspersed positional arguments,
`--` terminating option processing, long options split on the first `=`
and matched exactly or by unique prefix, short option clusters, and a
value-taking option consuming the cluster remainder or the next argument.
Integer conversion is modelled for decimal literals with an optional sign
(Python `int()` additionally accepts surrounding whitespace, radix
prefixes and digit underscores, none of which the claims exercise).
Every parse failure goes through `parser.error`, i.e. through
`ColoredOptionParser.error`. -/

/-- The parser state `values` for the declared destinations, after
`parser.set_defaults(just_deps=False, verbosity=1)`: `output=None`,
`just_deps=False`, `in_order=None`, `verbosity=1`. -/
structure ParseValues where
  output : Option String
  just_deps : Bool
  in_order : Option Bool
  verbosity : Int
deriving DecidableEq, Repr

/-- Default parser values at the start of `parser.parse_args`. -/
def initValues : ParseValues :=
  { output := none, just_deps := false, in_order := none, verbosity := 1 }

/-- Outcome of processing one option occurrence: a fatal parse error, an
updated state, or a state update that still needs the option value from
the next argument (the carried string is the `... option requires an
argument` message used when no next argument exists). -/
inductive OptStep where
  | err (msg : String)
  | done (vals : ParseValues)
  | needsArg (errMsg : String) (apply : String → Except String ParseValues)

/-- Python `p.isPrefixOf s` on strings, via character lists
(`optparse` long-option abbreviation matching uses `startswith`). -/
def strPrefixOf (p s : String) : Bool :=
  p.toList.isPrefixOf s.toList

/-- Python `arg.split("=", 1)` guarded by `"=" in arg`: the part before
the first `=`, and the part after it when one occurs. -/
def splitEqOnce : List Char → List Char → List Char × Option (List Char)
  | [], acc => (acc.reverse, none)
  | c :: rest, acc =>
    if c = '=' then (acc.reverse, some rest) else splitEqOnce rest (c :: acc)

/-- The long option strings declared on the parser. -/
def longOptStrings : List String := ["--deps", "--inorder", "--verbosity"]

/-- `optparse._match_long_opt`: an exact match wins, otherwise a unique
prefix of a declared long option; no match and ambiguous prefixes are
errors routed through `parser.error`. -/
def matchLongOpt (opt : String) : Except String String :=
  if opt ∈ longOptStrings then .ok opt
  else
    match longOptStrings.filter (fun w => strPrefixOf opt w) with
    | [w] => .ok w
    | [] => .error ("no such option: " ++ opt)
    | _ => .error ("ambiguous option: " ++ opt)

/-- Decimal integer conversion used by the `--verbosity` option
(`type="int"`): optional sign followed by at least one digit. -/
def digitsToNatAux : List Char → Nat → Option Nat
  | [], acc => some acc
  | c :: cs, acc =>
    if c.isDigit then digitsToNatAux cs (acc * 10 + (c.toNat - 48)) else none

/-- See `digitsToNatAux`; `none` on the empty digit string. -/
def digitsToNat : List Char → Option Nat
  | [] => none
  | l => digitsToNatAux l 0

/-- Model of Python `int(s)` for the option-argument strings the parser
converts. -/
def pyInt (s : String) : Option Int :=
  match s.toList with
  | '-' :: ds => (digitsToNat ds).map (fun n => -(n : Int))
  | '+' :: ds => (digitsToNat ds).map (fun n => (n : Int))
  | ds => (digitsToNat ds).map (fun n => (n : Int))

/-- `optparse._process_long_opt` for the declared option set: split the
token on the first `=`, match the option name, then apply its action.
`--deps` and `--inorder` are `store_true` and reject an explicit value;
`--verbosity` converts its value (inline or from the next argument) with
the int check. -/
def processLongOpt (arg : String) (vals : ParseValues) : OptStep :=
  let p := splitEqOnce arg.toList []
  let opt := String.mk p.1
  let inlineVal : Option String := p.2.map String.mk
  match matchLongOpt opt with
  | .error e => .err e
  | .ok name =>
    if name = "--deps" then
      match inlineVal with
      | some _ => .err (name ++ " option does not take a value")
      | none => .done { vals with just_deps := true }
    else if name = "--inorder" then
      match inlineVal with
      | some _ => .err (name ++ " option does not take a value")
      | none => .done { vals with in_order := some true }
    else
      match inlineVal with
      | some v =>
        match pyInt v with
        | some n => .done { vals with verbosity := n }
        | none => .err ("option --verbosity: invalid integer value: " ++ v)
      | none =>
        .needsArg ("--verbosity option requires an argument")
          (fun v =>
            match pyInt v with
            | some n => .ok { vals with verbosity := n }
            | none => .error ("option --verbosity: invalid integer value: " ++ v))

/-- `optparse._process_short_opts` for the declared option set: each
character of the cluster is one option.  `-o` takes a value: the cluster
remainder if non-empty, otherwise the next argument.  `-i` stores `True`
into `in_order`, `-q` stores the constant `0` into `verbosity`, and `-v`
counts: `verbosity = ensure_value(verbosity, 0) + 1`, which with the
integer default `1` in place increments the current value. -/
def processShortChars : List Char → ParseValues → OptStep
  | [], vals => .done vals
  | c :: cs, vals =>
    if c = 'o' then
      match cs with
      | [] => .needsArg ("-o option requires an argument")
          (fun v => .ok { vals with output := some v })
      | _ => .done { vals with output := some (String.mk cs) }
    else if c = 'i' then processShortChars cs { vals with in_order := some true }
    else if c = 'q' then processShortChars cs { vals with verbosity := 0 }
    else if c = 'v' then processShortChars cs { vals with verbosity := vals.verbosity + 1 }
    else .err ("no such option: -" ++ String.mk [c])

/-- `optparse._process_args` with interspersed arguments allowed (the
default): `--` ends option processing, `--x` tokens are long options,
`-x` tokens of length over one are short clusters, everything else is
collected as a positional argument.  Returns the final values and the
positional arguments in order. -/
def parseLoop : List String → ParseValues → List String →
    Except String (ParseValues × List String)
  | [], vals, largs => .ok (vals, largs.reverse)
  | arg :: rest, vals, largs =>
    if arg = "--" then .ok (vals, largs.reverse ++ rest)
    else if strPrefixOf "--" arg then
      match processLongOpt arg vals with
      | .err e => .error e
      | .done vals2 => parseLoop rest vals2 largs
      | .needsArg em f =>
        match rest with
        | [] => .error em
        | v :: rest2 =>
          match f v with
          | .error e => .error e
          | .ok vals2 => parseLoop rest2 vals2 largs
    else if strPrefixOf "-" arg ∧ 1 < arg.length then
      match processShortChars (arg.toList.drop 1) vals with
      | .err e => .error e
      | .done vals2 => parseLoop rest vals2 largs
      | .needsArg em f =>
        match rest with
        | [] => .error em
        | v :: rest2 =>
          match f v with
          | .error e => .error e
          | .ok vals2 => parseLoop rest2 vals2 largs
    else parseLoop rest vals (arg :: largs)

/-- `parser.parse_args(filtered_args)` with the defaults in place. -/
def parseArgs (args : List String) : Except String (ParseValues × List String) :=
  parseLoop args initValues []

/-- The list comprehension
`[a for a in argv if REMAP not in a]` from `process_args`. -/
def filteredArgs (argv : List String) : List String :=
  argv.filter (fun a => !(hasRemap a))

/-- How `process_args` can terminate abnormally: `parser.error` (which
prints the colorized message and calls `sys.exit(2)`), the uncaught
`RuntimeError` from `load_mappings`, or the uncaught `TypeError` raised
while formatting a diagnostic message. -/
inductive ProcErr where
  | usage (msg : String)
  | runtimeError (arg : String)
  | typeError
deriving DecidableEq, Repr

/-- The process exit status produced by each abnormal termination:
`parser.error` exits with status 2; an uncaught Python exception
terminates the interpreter with status 1. -/
def exitStatus : ProcErr → Nat
  | .usage _ => 2
  | .runtimeError _ => 1
  | .typeError => 1

/-- `ColoredOptionParser.error(message)`: colorize the message in red
(with the `colorize` defaults `file=sys.stderr`, `alt_text=""`), then
`optparse.OptionParser.error`, which prints it and exits with status 2. -/
def coloredOptionParserError (stderr : TextStream) (msg : String) : ProcErr :=
  match colorize msg (some "red") stderr (some "") with
  | .ok s => ProcErr.usage s
  | .error _ => ProcErr.typeError

/-- The resolved options dictionary returned by `process_args`
(`vars(options)` plus the attached `mappings`). -/
structure OptionsR where
  output : Option String
  just_deps : Bool
  in_order : Bool
  verbosity : Int
  mappings : List (String × String)
deriving DecidableEq, Repr

/-- Python truthiness of the `in_order` destination
(`None` or `True` after parsing). -/
def truthyOptBool : Option Bool → Bool
  | some b => b
  | none => false

/-- The obsolescence notice printed when the legacy in-order flag was
supplied. -/
def obsoleteMsg : String :=
  "xacro: in-order processing became default in ROS Melodic. You can drop the option."

/-- `vars(options)` after `options.in_order = True` and
`options.mappings = mappings`. -/
def mkOptions (vals : ParseValues) (m : List (String × String)) : OptionsR :=
  { output := vals.output, just_deps := vals.just_deps, in_order := true,
    verbosity := vals.verbosity, mappings := m }

/-- Embedding of `cli.process_args(argv, require_input)`.  In order:
`load_mappings` (its `RuntimeError` is not an `ImportError`, so the
`except ImportError` clause never catches it and it propagates), the
remap filter, `parser.parse_args` on the filtered vector, the
obsolescence notice when `options.in_order` is truthy (`message` with no
`alt_text`, which raises `TypeError`), the forced `in_order = True`, the
positional-count check (`parser.error` when it fails and input is
required, `[None]` otherwise), and finally the attached mappings. -/
def process_args (stderr : TextStream) (argv : List String)
    (require_input : Bool) : Except ProcErr (OptionsR × Option String) :=
  match load_mappings argv with
  | .error a => .error (.runtimeError a)
  | .ok mappings =>
    match parseArgs (filteredArgs argv) with
    | .error msg => .error (coloredOptionParserError stderr msg)
    | .ok (vals, pos_args) =>
      match (if truthyOptBool vals.in_order then
               message obsoleteMsg none stderr none
             else .ok "") with
      | .error _ => .error .typeError
      | .ok _ =>
        if pos_args.length ≠ 1 then
          if require_input then
            .error (coloredOptionParserError stderr
              "expected exactly one input file as argument")
          else .ok (mkOptions vals mappings, none)
        else .ok (mkOptions vals mappings, pos_args.head?)

/-! ## Capturing entrypoint (`xacro.process` in `__init__.py`) -/

/-- A binding of the global `sys.stdout`: either a real stream (identified
by an id) or an in-memory `StringIO` buffer holding its written
characters. -/
inductive OutStream where
  | real (id : Nat)
  | buffer (contents : List Char)
deriving DecidableEq, Repr

/-- The process-wide state the capturing entrypoint manipulates: the
current `sys.stdout` binding. -/
structure World where
  stdout : OutStream
deriving DecidableEq, Repr

/-- Appending text to the currently bound standard output. -/
def writeOut : OutStream → List Char → OutStream
  | .real i, _ => .real i
  | .buffer s, t => .buffer (s ++ t)

/-- `sys.stdout.seek(0)` followed by `sys.stdout.read()` on the sink. -/
def readFromStart : OutStream → String
  | .real _ => ""
  | .buffer s => String.mk s

/-- The options dictionary the capturing entrypoint hands to
`process_file.process`. -/
structure EngineOpts where
  output : Option String
  just_deps : Bool
  xacro_ns : Bool
  verbosity : Int
  mappings : List (String × String)
deriving DecidableEq, Repr

/-- Embedding of `xacro.process(input_file_name, just_deps, xacro_ns,
verbosity, mappings)`.  The Processing Engine (`process_file.process`) is
out of scope and is modelled by the parameter `engine`, giving the text it
writes to the current standard output when invoked with an input
identifier and an options dictionary and returning normally.  The
function saves the current `sys.stdout`, rebinds it to a fresh `StringIO`,
invokes the engine with `output=None`, reads the sink from its start, and
restores the saved binding. -/
def process (engine : String → EngineOpts → String) (input_file_name : String)
    (just_deps : Bool) (xacro_ns : Bool) (verbosity : Int)
    (mappings : List (String × String)) (w : World) : String × World :=
  let old := w.stdout
  let redirected : OutStream := OutStream.buffer []
  let opts : EngineOpts :=
    { output := none, just_deps := just_deps, xacro_ns := xacro_ns,
      verbosity := verbosity, mappings := mappings }
  let afterRun : OutStream :=
    writeOut redirected (engine input_file_name opts).toList
  let result : String := readFromStart afterRun
  (result, { stdout := old })

/-! ## Helper lemmas -/

/-- A Python split always yields at least one part. -/
theorem pySplitRemap_length_pos (s : String) : 0 < (pySplitRemap s).length := by
  simp [pySplitRemap]

/-- When splitting and trimming an argument yields an unpackable pair, the
argument contains the remap delimiter. -/
theorem hasRemap_of_pair {t s d : String}
    (h : (pySplitRemap t).map pyStrip = [s, d]) : hasRemap t = true := by
  have hlen : (pySplitRemap t).length = 2 := by
    have h2 := congrArg List.length h
    simpa using h2
  simp [hasRemap, hlen]

/-- A token without the delimiter is passed over by the extractor loop. -/
theorem loadMappingsGo_cons_noremap {t : String} (rest : List String)
    (m : List (String × String)) (ht : hasRemap t = false) :
    loadMappingsGo (t :: rest) m = loadMappingsGo rest m := by
  simp [loadMappingsGo, ht]

/-- Step behaviour of the extractor loop on a token whose split-and-trim
yields exactly two parts. -/
theorem loadMappingsGo_cons_pair {t s d : String} (rest : List String)
    (m : List (String × String))
    (hxs : (pySplitRemap t).map pyStrip = [s, d]) :
    loadMappingsGo (t :: rest) m =
      if s != "" && d != "" then
        if isParamAssign s then loadMappingsGo rest m
        else loadMappingsGo rest (dictInsert m s d)
      else loadMappingsGo rest m := by
  have ht := hasRemap_of_pair hxs
  simp only [loadMappingsGo, ht, if_true]
  rw [hxs]

/-- Step behaviour of the extractor loop on a token whose split yields
more than two parts: tuple unpacking fails and the error is raised. -/
theorem loadMappingsGo_cons_big {t : String} (rest : List String)
    (m : List (String × String)) (h : 2 < (pySplitRemap t).length) :
    loadMappingsGo (t :: rest) m = .error t := by
  have ht : hasRemap t = true := by
    simp only [hasRemap, bne_iff_ne]
    omega
  have hlen : ((pySplitRemap t).map pyStrip).length = (pySplitRemap t).length :=
    List.length_map _ _
  rcases hxs : (pySplitRemap t).map pyStrip with _ | ⟨a, _ | ⟨b, _ | ⟨c, l3⟩⟩⟩
  · rw [hxs] at hlen; simp at hlen; omega
  · rw [hxs] at hlen; simp at hlen; omega
  · rw [hxs] at hlen; simp at hlen; omega
  · simp only [loadMappingsGo, ht, if_true]
    rw [hxs]

/-- An existential over a cons cell drops the head when the head fails the
predicate. -/
theorem exists_mem_cons_iff_of_not {α : Type} {P : α → Prop} {t : α}
    {l : List α} (h : ¬ P t) :
    (∃ a, a ∈ t :: l ∧ P a) ↔ ∃ a, a ∈ l ∧ P a := by
  constructor
  · rintro ⟨a, ha, hp⟩
    rcases List.mem_cons.mp ha with rfl | ha2
    · exact absurd hp h
    · exact ⟨a, ha2, hp⟩
  · rintro ⟨a, ha, hp⟩
    exact ⟨a, List.mem_cons_of_mem _ ha, hp⟩

/-- The extractor loop raises exactly when some remaining token bears the
delimiter and its split does not have exactly two parts, independent of the
accumulated dictionary. -/
theorem loadMappingsGo_error_iff (l : List String) :
    ∀ m : List (String × String),
      (∃ e, loadMappingsGo l m = .error e) ↔
        ∃ a, a ∈ l ∧ hasRemap a = true ∧ (pySplitRemap a).length ≠ 2 := by
  induction l with
  | nil => intro m; simp [loadMappingsGo]
  | cons t rest ih =>
    intro m
    by_cases ht : hasRemap t = true
    · have hpos := pySplitRemap_length_pos t
      have hne1 : (pySplitRemap t).length ≠ 1 := by
        simpa [hasRemap, bne_iff_ne] using ht
      rcases Nat.lt_or_ge 2 (pySplitRemap t).length with hbig | hle
      · rw [loadMappingsGo_cons_big rest m hbig]
        constructor
        · intro _
          exact ⟨t, List.mem_cons_self t rest, ht, by omega⟩
        · intro _
          exact ⟨t, rfl⟩
      · have hlen2 : (pySplitRemap t).length = 2 := by omega
        have hlen2m : ((pySplitRemap t).map pyStrip).length = 2 := by
          simp [hlen2]
        obtain ⟨s, d, hsd⟩ := List.length_eq_two.mp hlen2m
        have hnot : ¬ (hasRemap t = true ∧ (pySplitRemap t).length ≠ 2) :=
          fun hc => hc.2 hlen2
        rw [loadMappingsGo_cons_pair rest m hsd]
        rw [exists_mem_cons_iff_of_not
          (P := fun a => hasRemap a = true ∧ (pySplitRemap a).length ≠ 2) hnot]
        split_ifs with h1 h2
        · exact ih m
        · exact ih (dictInsert m s d)
        · exact ih m
    · have ht2 : hasRemap t = false := by
        simpa using ht
      have hnot : ¬ (hasRemap t = true ∧ (pySplitRemap t).length ≠ 2) := by
        intro hc
        rw [ht2] at hc
        exact Bool.false_ne_true hc.1
      rw [loadMappingsGo_cons_noremap rest m ht2]
      rw [exists_mem_cons_iff_of_not
        (P := fun a => hasRemap a = true ∧ (pySplitRemap a).length ≠ 2) hnot]
      exact ih m

/-- `ColoredOptionParser.error` always reaches `OptionParser.error` with a
formatted string: `colorize` never raises when an alt text is supplied. -/
theorem coloredOptionParserError_is_usage (st : TextStream) (msg : String) :
    ∃ s, coloredOptionParserError st msg = ProcErr.usage s := by
  obtain ⟨hi, ia⟩ := st
  cases hi <;> cases ia <;> exact ⟨_, rfl⟩

/-! ## Claim theorems -/

/-- Claim C1.  The claim states that every diagnostics operation completes
without raising for every message and stream; `warning` and `error` (whose
default alt texts are strings) indeed never raise, but the shared
formatter raises `TypeError` whenever it is reached with `alt_text=None`
and no colorization applies — which is exactly what happens for an
uncategorized `message` call with no alt text, as made for the
obsolete-flag notice, on every stream (interactive or not). -/
theorem diagnostics_alt_text_none_raises :
    ∀ (file : TextStream) (msg : String),
      (∃ s, warning msg file = .ok s) ∧
      (∃ s, Xacro.error msg file = .ok s) ∧
      message obsoleteMsg none file none = .error () := by
  intro file msg
  obtain ⟨hi, ia⟩ := file
  refine ⟨?_, ?_, rfl⟩ <;> cases hi <;> cases ia <;> exact ⟨_, rfl⟩

/-- Claim C2, counterexample.  The claim asserts a fatal invalid-remap
error for the token `":=bar"`; the code returns successfully with an empty
mapping instead (the `if src and dst` guard silently skips empty sides). -/
theorem load_mappings_empty_side_no_error :
    load_mappings [":=bar"] = .ok ([] : List (String × String)) := rfl

/-- Claim C2, amended.  A delimiter-bearing token that splits into exactly
two parts with an empty trimmed side is silently ignored by the remap
extractor: no error is raised and no mapping entry is added, for any
surrounding arguments and accumulated dictionary; the token still counts
as a remap token (and is hence removed from the filtered vector). -/
theorem load_mappings_empty_side_skipped :
    ∀ (t : String) (rest : List String) (m : List (String × String))
      (s d : String),
      (pySplitRemap t).map pyStrip = [s, d] → s = "" ∨ d = "" →
      loadMappingsGo (t :: rest) m = loadMappingsGo rest m ∧
      hasRemap t = true := by
  intro t rest m s d hxs hempty
  refine ⟨?_, hasRemap_of_pair hxs⟩
  rw [loadMappingsGo_cons_pair rest m hxs]
  rcases hempty with rfl | rfl <;> simp

/-- Claim C2, witness: the token `":=bar"` (empty trimmed source). -/
theorem load_mappings_empty_side_skipped_witness :
    loadMappingsGo [":=bar"] [] = loadMappingsGo [] [] ∧
    hasRemap ":=bar" = true :=
  load_mappings_empty_side_skipped ":=bar" [] [] "" "bar" rfl (Or.inl rfl)

/-- Claim C3, counterexample.  The claim asserts that `"a:=b:=c"` splits
on the first delimiter occurrence into source `"a"` and destination
`"b:=c"`; the code splits on every occurrence, tuple unpacking fails, and
the fatal invalid-remap error is raised for this token instead. -/
theorem load_mappings_multi_delim_error :
    load_mappings ["a:=b:=c"] = .error "a:=b:=c" := rfl

/-- Claim C3, amended.  The remap extractor splits each delimiter-bearing
token on every occurrence of the delimiter and trims each part: a token
with more than one occurrence (more than two parts) raises the fatal
invalid-remap error identifying the token, and a token with exactly one
occurrence is processed further using its two trimmed parts. -/
theorem load_mappings_splits_on_every_occurrence :
    ∀ (t : String) (rest : List String) (m : List (String × String)),
      (2 < (pySplitRemap t).length → loadMappingsGo (t :: rest) m = .error t) ∧
      (∀ s d, (pySplitRemap t).map pyStrip = [s, d] →
        loadMappingsGo (t :: rest) m =
          if s != "" && d != "" then
            if isParamAssign s then loadMappingsGo rest m
            else loadMappingsGo rest (dictInsert m s d)
          else loadMappingsGo rest m) := by
  intro t rest m
  exact ⟨fun h => loadMappingsGo_cons_big rest m h,
         fun s d hxs => loadMappingsGo_cons_pair rest m hxs⟩

/-- Claim C3, witness: the token `"a:=b:=c"` (two delimiter occurrences)
raises. -/
theorem load_mappings_splits_on_every_occurrence_witness :
    loadMappingsGo ["a:=b:=c"] [] = Except.error "a:=b:=c" :=
  (load_mappings_splits_on_every_occurrence "a:=b:=c" [] []).1 (by decide)

/-- Claim C4, counterexample.  The claim asserts that the trimmed source
`"_"` (a single underscore with no second character) is treated as a
parameter assignment and excluded; the code requires `len(src) > 1`, so
`"_:=bar"` is inserted into the mapping. -/
theorem load_mappings_single_underscore_kept :
    load_mappings ["_:=bar"] = .ok [("_", "bar")] := rfl

/-- Claim C4, amended.  A pair whose non-empty trimmed source starts with
exactly one leading underscore and has at least one further character is a
parameter assignment: it is not inserted into the mapping but the token is
still a remap token (hence removed from the filtered vector); any other
non-empty source — including `"__foo"` with two leading underscores and
the single character `"_"`, which is too short to qualify — is inserted. -/
theorem load_mappings_param_assign_rule :
    ∀ (t : String) (rest : List String) (m : List (String × String))
      (s d : String),
      (pySplitRemap t).map pyStrip = [s, d] → s ≠ "" → d ≠ "" →
      (isParamAssign s = true →
        loadMappingsGo (t :: rest) m = loadMappingsGo rest m) ∧
      (isParamAssign s = false →
        loadMappingsGo (t :: rest) m = loadMappingsGo rest (dictInsert m s d)) ∧
      hasRemap t = true ∧
      isParamAssign "_" = false ∧ isParamAssign "__foo" = false ∧
      isParamAssign "_foo" = true := by
  intro t rest m s d hxs hs hd
  have hcond : (s != "" && d != "") = true := by
    simp [bne_iff_ne, hs, hd]
  refine ⟨?_, ?_, hasRemap_of_pair hxs, by decide, by decide, by decide⟩
  · intro hpa
    rw [loadMappingsGo_cons_pair rest m hxs]
    simp [hcond, hpa]
  · intro hpa
    rw [loadMappingsGo_cons_pair rest m hxs]
    simp [hcond, hpa]

/-- Claim C4, witness: the boundary token `"_:=bar"` is inserted. -/
theorem load_mappings_param_assign_rule_witness :
    loadMappingsGo ["_:=bar"] [] = loadMappingsGo [] (dictInsert [] "_" "bar") :=
  ((load_mappings_param_assign_rule "_:=bar" [] [] "_" "bar" rfl
      (by decide) (by decide)).2.1) (by decide)

/-- Claim C5.  For every engine behaviour (normal return writing some text
to the current standard output), input identifier, options and initial
world, the capturing entrypoint returns exactly the text the engine wrote
to the redirected standard output, read from its start; the engine is
invoked with `output=None`; and the global standard-output binding is
restored to its prior identity after the call. -/
theorem process_captures_and_restores :
    ∀ (engine : String → EngineOpts → String) (input_file_name : String)
      (just_deps xacro_ns : Bool) (verbosity : Int)
      (mappings : List (String × String)) (w : World),
      process engine input_file_name just_deps xacro_ns verbosity mappings w =
        (engine input_file_name
          { output := none, just_deps := just_deps, xacro_ns := xacro_ns,
            verbosity := verbosity, mappings := mappings }, w) := by
  intro engine input jd xn v m w
  rfl

/-- Claim C6.  With no flags and the single positional argument `"p"`,
resolution succeeds with the default options — `output=None`,
`just_deps=False`, `in_order=True` (forced despite the legacy flag being
absent), `verbosity=1`, empty mappings — and input identifier `"p"`, on
every standard-error stream. -/
theorem process_args_defaults :
    ∀ st : TextStream,
      process_args st ["p"] true =
        .ok ({ output := none, just_deps := false, in_order := true,
               verbosity := 1, mappings := [] }, some "p") := by
  intro st
  rfl

/-- Claim C7.  The positional-cardinality rule of the claim holds whenever
the legacy in-order flag is absent: with a positional count different from
one, requiring input fails through `ColoredOptionParser.error` (a usage
error with exit status 2), and not requiring input with zero positionals
succeeds with a null input identifier.  But the claim as stated is broken
by the code on vectors containing the legacy flag: `["--inorder"]` has
zero positional arguments, yet the obsolescence notice raises `TypeError`
(see C1) before the cardinality check is reached. -/
theorem process_args_cardinality : ∀ st : TextStream,
    process_args st ["--inorder"] true = .error ProcErr.typeError ∧
    ∀ (argv : List String) (vals : ParseValues) (pos : List String)
      (m : List (String × String)),
      load_mappings argv = .ok m →
      parseArgs (filteredArgs argv) = .ok (vals, pos) →
      vals.in_order = none →
      pos.length ≠ 1 →
      (∃ emsg, process_args st argv true = .error (ProcErr.usage emsg) ∧
        exitStatus (ProcErr.usage emsg) ≠ 0) ∧
      (pos = [] → process_args st argv false = .ok (mkOptions vals m, none)) := by
  intro st
  refine ⟨rfl, ?_⟩
  intro argv vals pos m hlm hparse hio hpos
  have hred : ∀ ri : Bool, process_args st argv ri =
      (if pos.length ≠ 1 then
        if ri then
          .error (coloredOptionParserError st
            "expected exactly one input file as argument")
        else .ok (mkOptions vals m, none)
      else .ok (mkOptions vals m, pos.head?)) := by
    intro ri
    simp only [process_args, hlm, hparse, hio, truthyOptBool,
      Bool.false_eq_true, if_false]
  constructor
  · obtain ⟨s0, hs0⟩ :=
      coloredOptionParserError_is_usage st
        "expected exactly one input file as argument"
    refine ⟨s0, ?_, by simp [exitStatus]⟩
    rw [hred true]
    simp [hpos, hs0]
  · intro hnil
    rw [hred false]
    subst hnil
    simp

/-- Claim C7, witness: the empty argument vector (zero positionals) on a
non-interactive stream. -/
theorem process_args_cardinality_witness :
    (∃ emsg, process_args ⟨false, false⟩ [] true =
        .error (ProcErr.usage emsg) ∧ exitStatus (ProcErr.usage emsg) ≠ 0) ∧
    process_args ⟨false, false⟩ [] false = .ok (mkOptions initValues [], none) := by
  have h := (process_args_cardinality ⟨false, false⟩).2 [] initValues [] []
    rfl rfl rfl (by decide)
  exact ⟨h.1, h.2 rfl⟩

/-- Claim C8.  Every token containing the remap delimiter is absent from
the filtered vector handed to flag parsing; the filtered vector is a
sublist of the raw vector (original relative order preserved); and every
token without the delimiter passes through with its full multiplicity. -/
theorem filtered_args_spec : ∀ argv : List String,
    (∀ a, a ∈ filteredArgs argv → hasRemap a = false) ∧
    (filteredArgs argv).Sublist argv ∧
    (∀ a, hasRemap a = false →
      (filteredArgs argv).count a = argv.count a) := by
  intro argv
  refine ⟨?_, List.filter_sublist _, ?_⟩
  · intro a ha
    simp [filteredArgs, List.mem_filter] at ha
    exact ha.2
  · intro a hra
    induction argv with
    | nil => rfl
    | cons b l ihl =>
      by_cases hb : hasRemap b = false
      · simp [filteredArgs, List.filter_cons, hb, List.count_cons] at *
        omega
      · have hb2 : hasRemap b = true := by
          simpa using hb
        have hab : a ≠ b := fun he => by rw [he, hb2] at hra; cases hra
        simp [filteredArgs, List.filter_cons, hb2, List.count_cons, hab] at *
        exact ihl

/-- Claim C8, witness: a remap token is dropped, an ordinary token keeps
its count. -/
theorem filtered_args_spec_witness :
    hasRemap "x" = false ∧
    (filteredArgs ["a:=b", "x"]).count "x" = (["a:=b", "x"] : List String).count "x" :=
  ⟨by decide, (filtered_args_spec ["a:=b", "x"]).2.2 "x" (by decide)⟩

/-- Claim C9.  Verbosity flag interaction, for every standard-error
stream: `-q` stores 0, `--verbosity LEVEL` stores LEVEL, each `-v`
increments the value the parsing state holds at that point (default 1),
and the last-applied flag wins: `-q -v` yields 1, `-v -q` yields 0. -/
theorem verbosity_precedence :
    ∀ st : TextStream,
      process_args st ["-q", "p"] true =
        .ok ({ output := none, just_deps := false, in_order := true,
               verbosity := 0, mappings := [] }, some "p") ∧
      process_args st ["-q", "-v", "p"] true =
        .ok ({ output := none, just_deps := false, in_order := true,
               verbosity := 1, mappings := [] }, some "p") ∧
      process_args st ["-v", "-q", "p"] true =
        .ok ({ output := none, just_deps := false, in_order := true,
               verbosity := 0, mappings := [] }, some "p") ∧
      process_args st ["-v", "p"] true =
        .ok ({ output := none, just_deps := false, in_order := true,
               verbosity := 2, mappings := [] }, some "p") ∧
      process_args st ["-v", "-v", "p"] true =
        .ok ({ output := none, just_deps := false, in_order := true,
               verbosity := 3, mappings := [] }, some "p") ∧
      process_args st ["--verbosity", "3", "p"] true =
        .ok ({ output := none, just_deps := false, in_order := true,
               verbosity := 3, mappings := [] }, some "p") := by
  intro st
  exact ⟨rfl, rfl, rfl, rfl, rfl, rfl⟩

/-- Claim C10.  The remap extractor raises if and only if some argument
token contains the delimiter and splitting it on every occurrence yields a
number of parts different from two; in particular a token with exactly one
occurrence never causes an error, whatever its trimmed parts. -/
theorem load_mappings_error_iff (argv : List String) :
    (∃ e, load_mappings argv = .error e) ↔
      ∃ a, a ∈ argv ∧ hasRemap a = true ∧ (pySplitRemap a).length ≠ 2 :=
  loadMappingsGo_error_iff argv []

end Xacro
